import Mathlib

/-!
Verification development for the JobMatch AI generation-workflow frontend
(React SPA plus Supabase edge functions).  The definitions below are shallow
embeddings of the TypeScript source: JSON values are modelled by an inductive
`Json` type with JavaScript truthiness, React component state is modelled by
explicit state records, event handlers become state-transition functions, and
network calls are represented by explicit outcome parameters at the fetch
boundary.  All definitions are computable so that concrete scenarios can be
evaluated by `decide` / `rfl`.
-/

/-- Shallow model of a JavaScript/JSON value as exchanged with the external
AI services.  Numbers are modelled as integers (all scores and sizes in the
code and its scenarios are integral). -/
inductive Json where
  | null : Json
  | bool (b : Bool) : Json
  | num (n : Int) : Json
  | str (s : String) : Json
  | arr (elems : List Json) : Json
  | obj (fields : List (String × Json)) : Json

/-- Property access `j[k]` on a JavaScript value: `none` models `undefined`
(access on a non-object or a missing key). -/
def Json.get (j : Json) (k : String) : Option Json :=
  match j with
  | .obj fields => fields.lookup k
  | _ => none

/-- Optional-chaining path access `j?.k1?.k2...`. -/
def Json.getPath (j : Json) : List String → Option Json
  | [] => some j
  | k :: ks => match j.get k with
    | some v => v.getPath ks
    | none => none

/-- JavaScript truthiness of a value (NaN is not modelled; numbers are
integral). -/
def Json.truthy : Json → Bool
  | .null => false
  | .bool b => b
  | .num n => n != 0
  | .str s => s != ""
  | .arr _ => true
  | .obj _ => true

/-- Truthiness of a possibly-`undefined` value (`undefined` is falsy). -/
def optTruthy : Option Json → Bool
  | none => false
  | some v => v.truthy

/-- JavaScript `typeof v === 'object'` (true for objects, arrays and null). -/
def jsTypeofObject : Json → Bool
  | .obj _ => true
  | .arr _ => true
  | .null => true
  | _ => false

/-- Value of a JavaScript `a || b || ... || dflt` chain over possibly
undefined property accesses: the first truthy operand wins, otherwise the
final default. -/
def firstTruthy (xs : List (Option Json)) (dflt : Json) : Json :=
  match xs with
  | [] => dflt
  | none :: rest => firstTruthy rest dflt
  | some v :: rest => if v.truthy then v else firstTruthy rest dflt

/-- Property access defaulting to `null`; used at points where the source has
already established the property is defined. -/
def jget (j : Json) (k : String) : Json :=
  (j.get k).getD .null

/-! ## Workflow controller state (src/src/components/Dashboard.tsx)

The Dashboard component drives the step machine
`dashboard → upload → analyze → generate → scoring → final` and caches the
four step artifacts in `savedData`. -/

/-- The step pointer of the workflow controller (type `Step` in
Dashboard.tsx). -/
inductive Step where
  | dashboard | upload | analyze | generate | scoring | final
deriving DecidableEq, Repr

/-- Opaque model of a browser `File` object: the fields read by the client
validation in ResumeUpload.tsx. -/
structure FileInfo where
  name : String
  size : Nat
  type : String
deriving Repr, DecidableEq

/-- The `savedData` artifact cache of Dashboard.tsx: the uploaded résumé
file, the parsed résumé data, the analyzed job data, the generated cover
letter and the scoring results. -/
structure SavedData where
  resume : Option FileInfo
  resumeData : Option Json
  jobAnalysis : Option Json
  coverLetter : String
  matchingResults : Option Json

/-- React state of the Dashboard component relevant to step advancement and
artifact caching. -/
structure DashboardState where
  currentStep : Step
  savedData : SavedData
  resumeUploaded : Bool
  jobAnalyzed : Bool
  letterGenerated : Bool
  scoringCompleted : Bool
  isCoverLetterEditing : Bool
  hasUnsavedCoverLetterChanges : Bool

/-- Embedding of `handleJobAnalysis` (Dashboard.tsx): stores the analysis
artifact; a `null` artifact is the explicit reset signal and cascades,
clearing the letter and scoring artifacts and their completion flags. -/
def handleJobAnalysis (s : DashboardState) (analysisData : Option Json) : DashboardState :=
  let s1 := { s with savedData := { s.savedData with jobAnalysis := analysisData } }
  match analysisData with
  | none =>
      { s1 with
        jobAnalyzed := false
        letterGenerated := false
        scoringCompleted := false
        savedData := { s1.savedData with
          jobAnalysis := none
          coverLetter := ""
          matchingResults := none } }
  | some _ => { s1 with jobAnalyzed := true }

/-- Embedding of `canProceedToNext` (Dashboard.tsx): the advance-to-next-step
guard over the current step's completion flag, with the extra edit-state
condition on the generate step. -/
def canProceedToNext (s : DashboardState) : Bool :=
  match s.currentStep with
  | .dashboard => false
  | .upload => s.resumeUploaded
  | .analyze => s.jobAnalyzed
  | .generate => s.letterGenerated && !s.isCoverLetterEditing && !s.hasUnsavedCoverLetterChanges
  | .scoring => s.scoringCompleted
  | .final => false

/-- C1: completing the analyze step with a null artifact clears the job-data,
cover-letter and scoring artifacts together with their completion flags,
while the résumé file, the résumé data and the resumeUploaded flag are
unchanged — from any controller state. -/
theorem handleJobAnalysis_reset_cascades (s : DashboardState) :
    (handleJobAnalysis s none).savedData.jobAnalysis = none ∧
    (handleJobAnalysis s none).jobAnalyzed = false ∧
    (handleJobAnalysis s none).savedData.coverLetter = "" ∧
    (handleJobAnalysis s none).letterGenerated = false ∧
    (handleJobAnalysis s none).savedData.matchingResults = none ∧
    (handleJobAnalysis s none).scoringCompleted = false ∧
    (handleJobAnalysis s none).savedData.resume = s.savedData.resume ∧
    (handleJobAnalysis s none).savedData.resumeData = s.savedData.resumeData ∧
    (handleJobAnalysis s none).resumeUploaded = s.resumeUploaded := by
  simp [handleJobAnalysis]

/-- C5: the advance guard is false whenever the current step's completion
flag is false, and on the generate step it is additionally false whenever
the letter is mid-edit or has unsaved changes, even with letterGenerated
true. -/
theorem canProceedToNext_guard (s : DashboardState) :
    (s.currentStep = .upload → s.resumeUploaded = false → canProceedToNext s = false) ∧
    (s.currentStep = .analyze → s.jobAnalyzed = false → canProceedToNext s = false) ∧
    (s.currentStep = .generate → s.letterGenerated = false → canProceedToNext s = false) ∧
    (s.currentStep = .scoring → s.scoringCompleted = false → canProceedToNext s = false) ∧
    (s.currentStep = .generate →
      (s.isCoverLetterEditing = true ∨ s.hasUnsavedCoverLetterChanges = true) →
      canProceedToNext s = false) := by
  refine ⟨?_, ?_, ?_, ?_, ?_⟩ <;> intro h1 h2 <;> simp [canProceedToNext, h1]
  · simp [h2]
  · simp [h2]
  · simp [h2]
  · simp [h2]
  · rcases h2 with h2 | h2 <;> simp [h2]

/-- Closed instance of the advance guard: on the generate step with the
letter generated but mid-edit, advancement is blocked. -/
theorem canProceedToNext_guard_witness :
    canProceedToNext
      { currentStep := .generate
        savedData := { resume := none, resumeData := none, jobAnalysis := none,
                       coverLetter := "", matchingResults := none }
        resumeUploaded := true, jobAnalyzed := true, letterGenerated := true
        scoringCompleted := false, isCoverLetterEditing := true
        hasUnsavedCoverLetterChanges := false } = false :=
  (canProceedToNext_guard _).2.2.2.2 rfl (Or.inl rfl)

/-! ## String helpers

Character-level implementations of the JavaScript string operations used by
the validators (`split('.')`, `toLowerCase()`, `trim()`, `endsWith`), kept
structurally recursive so that concrete scenarios reduce inside the
kernel. -/

/-- Accumulator loop for splitting a character list on the dot character. -/
def splitDotAux : List Char → List Char → List String
  | [], acc => [String.mk acc.reverse]
  | c :: cs, acc =>
      if c = '.' then String.mk acc.reverse :: splitDotAux cs []
      else splitDotAux cs (c :: acc)

/-- JavaScript `s.split('.')`: always returns at least one fragment (the
split of the empty string is `[""]`). -/
def jsSplitDot (s : String) : List String := splitDotAux s.toList []

/-- JavaScript `s.toLowerCase()` (ASCII-adequate for the inputs the
validators compare against). -/
def jsToLower (s : String) : String := String.mk (s.toList.map Char.toLower)

/-- Whitespace recognized by JavaScript `trim()` on the inputs of interest. -/
def isJsSpace (c : Char) : Bool :=
  c = ' ' || c = '\t' || c = '\n' || c = '\r' || c.val = 12 || c.val = 11

/-- JavaScript `s.trim()`. -/
def jsTrim (s : String) : String :=
  String.mk (((s.toList.dropWhile isJsSpace).reverse.dropWhile isJsSpace).reverse)

/-- JavaScript `s.endsWith(post)`. -/
def jsEndsWith (s post : String) : Bool :=
  post.toList.isSuffixOf s.toList

/-! ## Client file validation (src/src/components/ResumeUpload.tsx)

Constants and `validateFile` as defined in the ResumeUpload component. -/

/-- Maximum upload size in bytes (`MAX_FILE_SIZE = 10 * 1024 * 1024`). -/
def MAX_FILE_SIZE : Nat := 10 * 1024 * 1024

/-- MIME allow-list (`ALLOWED_TYPES`). -/
def ALLOWED_TYPES : List String :=
  ["application/pdf", "application/vnd.openxmlformats-officedocument.wordprocessingml.document"]

/-- Extension allow-list (`ALLOWED_EXTENSIONS`). -/
def ALLOWED_EXTENSIONS : List String := [".pdf", ".docx"]

/-- Result record of the client validators (`{ isValid, error? }`). -/
structure FileValidation where
  isValid : Bool
  error : Option String
deriving Repr, DecidableEq

/-- The extension string computed by `validateFile`:
`'.' + file.name.split('.').pop()?.toLowerCase()`.  JavaScript `split`
always yields a non-empty array, so `pop` is the last fragment. -/
def fileExtensionOf (name : String) : String :=
  "." ++ jsToLower ((jsSplitDot name).getLastD "")

/-- Embedding of `validateFile` (ResumeUpload.tsx): checks size, MIME type
and extension in that order, returning the first constraint-specific error
message. -/
def validateFile (file : FileInfo) : FileValidation :=
  if file.size > MAX_FILE_SIZE then
    { isValid := false
      error := some "Файл слишком большой. Максимальный размер: 10MB" }
  else if !(ALLOWED_TYPES.contains file.type) then
    { isValid := false
      error := some "Неподдерживаемый тип файла. Используйте PDF или DOCX" }
  else if !(ALLOWED_EXTENSIONS.contains (fileExtensionOf file.name)) then
    { isValid := false
      error := some "Неподдерживаемое расширение файла. Используйте .pdf или .docx" }
  else
    { isValid := true, error := none }

/-- Modelled from the spec (§4.2 Upload), for comparison with `validateFile`:
size at most 10 MiB, MIME in the allow-list, extension matching the MIME
type, and a filename free of control and path-breaking characters. -/
def spec_uploadConstraintsOk (file : FileInfo) : Bool :=
  decide (file.size ≤ MAX_FILE_SIZE) &&
  ALLOWED_TYPES.contains file.type &&
  ((file.type == "application/pdf" && fileExtensionOf file.name == ".pdf") ||
   (file.type == "application/vnd.openxmlformats-officedocument.wordprocessingml.document" &&
    fileExtensionOf file.name == ".docx")) &&
  file.name.toList.all (fun c => c.val ≥ 0x20 && c.val ≠ 0x7f && c ≠ '/' && c ≠ '\\')

/-- C3 counterexample: a 100-byte file named "resume.docx" with MIME type
application/pdf violates the extension-matches-MIME constraint of the claim,
yet `validateFile` accepts it — so acceptance is not exactly the
conjunction of the claimed constraints. -/
theorem validateFile_extension_mismatch_cex :
    validateFile { name := "resume.docx", size := 100, type := "application/pdf" }
      = { isValid := true, error := none } ∧
    spec_uploadConstraintsOk { name := "resume.docx", size := 100, type := "application/pdf" }
      = false := by
  constructor <;> decide

/-- C3 amended: `validateFile` accepts exactly the files with size at most
10 MiB, MIME type in the allow-list, and lowercased extension in
{.pdf, .docx}; each violated constraint produces its specific message, with
size checked first, then MIME, then extension.  It does not require the
extension to match the MIME type and performs no filename-character
check. -/
theorem validateFile_characterization (file : FileInfo) :
    ((validateFile file).isValid = true ↔
      (file.size ≤ MAX_FILE_SIZE ∧
       ALLOWED_TYPES.contains file.type = true ∧
       ALLOWED_EXTENSIONS.contains (fileExtensionOf file.name) = true)) ∧
    (file.size > MAX_FILE_SIZE →
      (validateFile file).error = some "Файл слишком большой. Максимальный размер: 10MB") ∧
    (file.size ≤ MAX_FILE_SIZE → ALLOWED_TYPES.contains file.type = false →
      (validateFile file).error = some "Неподдерживаемый тип файла. Используйте PDF или DOCX") ∧
    (file.size ≤ MAX_FILE_SIZE → ALLOWED_TYPES.contains file.type = true →
      ALLOWED_EXTENSIONS.contains (fileExtensionOf file.name) = false →
      (validateFile file).error = some "Неподдерживаемое расширение файла. Используйте .pdf или .docx") := by
  unfold validateFile
  split_ifs with h1 h2 h3 <;> refine ⟨?_, ?_, ?_, ?_⟩ <;> simp_all

/-- Closed instance of the amended file-validation characterization: an
11 MiB PDF is rejected with the size-specific message. -/
theorem validateFile_characterization_witness :
    (validateFile { name := "resume.pdf", size := 11534336, type := "application/pdf" }).error
      = some "Файл слишком большой. Максимальный размер: 10MB" :=
  (validateFile_characterization _).2.1 (by decide)

/-! ## Job-URL validation (src/unnamed/part_007, JobAnalysis component)

The per-site path patterns of `validateJobUrl` are regexes built from
literal characters and one-or-more-digit groups, unanchored at both ends.
They are embedded as token lists with an exhaustive backtracking matcher. -/

/-- One token of a path pattern: a literal character or a `\d+` group. -/
inductive PathTok where
  | lit (c : Char)
  | digits
deriving Repr, DecidableEq

/-- Suffixes of a character list reachable by consuming zero or more leading
digits; used to enumerate the ways a `\d+` group can extend. -/
def digitSuffixes : List Char → List (List Char)
  | [] => [[]]
  | x :: xs => (x :: xs) :: (if x.isDigit then digitSuffixes xs else [])

/-- Match a token pattern against a prefix of the character list (the
remainder may be anything, mirroring a regex unanchored at the end); a
`\d+` group consumes one digit and then backtracks over every possible
further digit run. -/
def matchToks : List PathTok → List Char → Bool
  | [], _ => true
  | .lit _ :: _, [] => false
  | .lit c :: ts, x :: xs => x == c && matchToks ts xs
  | .digits :: _, [] => false
  | .digits :: ts, x :: xs =>
      x.isDigit && (digitSuffixes xs).any (fun rest => matchToks ts rest)

/-- Match a token pattern at any position of the character list (regex
unanchored at the start). -/
def searchToks (p : List PathTok) : List Char → Bool
  | [] => matchToks p []
  | x :: xs => matchToks p (x :: xs) || searchToks p xs

/-- JavaScript `pattern.test(s)` for the path patterns of
`validateJobUrl`. -/
def regexTest (p : List PathTok) (s : String) : Bool := searchToks p s.toList

/-- Literal-character tokens of a string. -/
def litToks (s : String) : List PathTok := s.toList.map PathTok.lit

/-- One entry of the `supportedSites` allow-list of `validateJobUrl`. -/
structure SupportedSite where
  domains : List String
  name : String
  pathPattern : List PathTok

/-- The `supportedSites` allow-list of `validateJobUrl` with the per-site
path patterns. -/
def supportedSites : List SupportedSite := [
  { domains := ["hh.ru", "hh.kz", "hh.by", "hh.uz", "hh.kg"], name := "HeadHunter",
    pathPattern := litToks "/vacancy/" ++ [.digits] },
  { domains := ["linkedin.com", "www.linkedin.com"], name := "LinkedIn",
    pathPattern := litToks "/jobs/view/" ++ [.digits] },
  { domains := ["djinni.co", "www.djinni.co"], name := "Djinni",
    pathPattern := litToks "/jobs/" ++ [.digits] },
  { domains := ["career.habr.com"], name := "Habr Career",
    pathPattern := litToks "/vacancies/" ++ [.digits] },
  { domains := ["superjob.ru", "www.superjob.ru"], name := "SuperJob",
    pathPattern := litToks "/vakansii/" },
  { domains := ["work.ua", "www.work.ua"], name := "Work.ua",
    pathPattern := litToks "/jobs/" ++ [.digits] },
  { domains := ["rabota.ua", "www.rabota.ua"], name := "Rabota.ua",
    pathPattern := litToks "/company" ++ [.digits] ++ litToks "/vacancy" ++ [.digits] },
  { domains := ["jobs.ua", "www.jobs.ua"], name := "Jobs.ua",
    pathPattern := litToks "/vacancy/" }]

/-- Outcome of the external browser URL constructor on the (possibly
https-prefixed) trimmed input: either a parse failure or the parsed
protocol, hostname and pathname. -/
inductive UrlParse where
  | failure
  | success (protocol hostname pathname : String)

/-- Result record of `validateJobUrl`
(`{ isValid, error?, detectedSite? }`). -/
structure JobUrlValidation where
  isValid : Bool
  error : Option String
  detectedSite : Option String

/-- The `supportedSites.find(...)` hostname lookup of `validateJobUrl`: the
lowercased hostname must equal an allow-listed domain or end in
`"." + domain`. -/
def siteFor (hostname : String) : Option SupportedSite :=
  supportedSites.find? (fun site =>
    site.domains.any (fun d =>
      jsToLower hostname == d || jsEndsWith (jsToLower hostname) ("." ++ d)))

/-- Embedding of `validateJobUrl` (part_007): blank check, URL parse (the
browser URL constructor is external and enters as the `parse` argument;
the code prefixes `https://` when the trimmed input does not start with
`http`), hostname allow-list lookup, per-site path-pattern test, and the
final protocol check. -/
def validateJobUrl (url : String) (parse : UrlParse) : JobUrlValidation :=
  if (jsTrim url).length = 0 then
    { isValid := false, error := some "Введите URL вакансии", detectedSite := none }
  else
    match parse with
    | .failure =>
        { isValid := false
          error := some "Некорректный формат URL. Пример: https://hh.ru/vacancy/123456"
          detectedSite := none }
    | .success protocol hostname pathname =>
        match siteFor hostname with
        | none =>
            { isValid := false
              error := some ("Сайт \"" ++ jsToLower hostname ++
                "\" не поддерживается. Используйте один из поддерживаемых сайтов.")
              detectedSite := none }
        | some site =>
            if !(regexTest site.pathPattern pathname) then
              { isValid := false
                error := some ("Некорректный формат ссылки для " ++ site.name ++
                  ". Убедитесь, что это прямая ссылка на вакансию.")
                detectedSite := none }
            else if protocol != "https:" && protocol != "http:" then
              { isValid := false
                error := some "URL должен использовать протокол HTTP или HTTPS"
                detectedSite := none }
            else
              { isValid := true, error := none, detectedSite := some site.name }

/-- C2 counterexample: the result is not a function of (hostname, path)
alone, and an allow-listed hostname with a matching path can still be
rejected — the input `httpx://hh.ru/vacancy/123456` starts with `http`, so
no `https://` is prefixed, it parses with protocol `httpx:`, hostname
`hh.ru` and path `/vacancy/123456`, and the final protocol check rejects
it, while the same hostname and path under `https:` are accepted. -/
theorem validateJobUrl_protocol_cex :
    (validateJobUrl "httpx://hh.ru/vacancy/123456"
        (UrlParse.success "httpx:" "hh.ru" "/vacancy/123456")).isValid = false ∧
    (validateJobUrl "https://hh.ru/vacancy/123456"
        (UrlParse.success "https:" "hh.ru" "/vacancy/123456")).isValid = true := by
  constructor <;> decide

/-- C2 amended: `validateJobUrl` is a pure function of the parsed
(protocol, hostname, path) of its trimmed input: a hostname matching no
allow-listed domain is rejected; an allow-listed hostname whose path fails
that site's pattern is rejected; and otherwise the URL is accepted with the
matched site name in detectedSite provided the parsed protocol is `https:`
or `http:` (any other protocol is rejected). -/
theorem validateJobUrl_characterization (url protocol hostname pathname : String)
    (hurl : (jsTrim url).length ≠ 0) :
    (siteFor hostname = none →
      (validateJobUrl url (.success protocol hostname pathname)).isValid = false) ∧
    (∀ site, siteFor hostname = some site →
      regexTest site.pathPattern pathname = false →
      (validateJobUrl url (.success protocol hostname pathname)).isValid = false) ∧
    (∀ site, siteFor hostname = some site →
      regexTest site.pathPattern pathname = true →
      (protocol = "https:" ∨ protocol = "http:") →
      (validateJobUrl url (.success protocol hostname pathname)).isValid = true ∧
      (validateJobUrl url (.success protocol hostname pathname)).detectedSite
        = some site.name) := by
  refine ⟨?_, ?_, ?_⟩
  · intro hs
    simp [validateJobUrl, hurl, hs]
  · intro site hs hp
    simp [validateJobUrl, hurl, hs, hp]
  · intro site hs hp hproto
    have hpr : (protocol != "https:" && protocol != "http:") = false := by
      rcases hproto with h | h <;> simp [h]
    constructor <;> simp [validateJobUrl, hurl, hs, hp, hpr]

/-- Closed instance of the amended URL-validation characterization: a
HeadHunter vacancy URL over https is accepted and the detected site is
reported. -/
theorem validateJobUrl_characterization_witness :
    (validateJobUrl "https://hh.ru/vacancy/123456"
        (UrlParse.success "https:" "hh.ru" "/vacancy/123456")).isValid = true ∧
    (validateJobUrl "https://hh.ru/vacancy/123456"
        (UrlParse.success "https:" "hh.ru" "/vacancy/123456")).detectedSite
      = some "HeadHunter" := by
  have h := (validateJobUrl_characterization "https://hh.ru/vacancy/123456" "https:" "hh.ru"
      "/vacancy/123456" (by decide)).2.2 _ rfl (by decide) (Or.inl rfl)
  exact ⟨h.1, h.2⟩

/-! ## Scoring response validation (src/unnamed/part_005, performScoringAnalysis)

The segment of `performScoringAnalysis` that runs on a 200 response after
`response.json()`: structural validation of the payload, the range check
over the five scores (warnings only), and the return of the response for
display.  An `Except` models throw-versus-return; the warning list models
the `console.warn` calls of the range check. -/

/-- The `requiredFields` list checked on `scoring_result`. -/
def requiredScoringFields : List String :=
  ["total_score", "breakdown", "recommendation", "recruiter_recommendation",
   "candidate_recommendation"]

/-- The first required field that is `undefined` on `scoring_result`; the
source loop throws at the first such field. -/
def firstMissingRequired (scoringResult : Json) : Option String :=
  requiredScoringFields.find? (fun f => (scoringResult.get f).isNone)

/-- Range check of one score value
(`typeof v === 'number' && v >= 0 && v <= 100`). -/
def scoreInRange : Option Json → Bool
  | some (.num n) => decide (0 ≤ n) && decide (n ≤ 100)
  | _ => false

/-- Textual core of the range-violation console warning for one score
field. -/
def rangeWarning (fieldName : String) : String :=
  "Значение " ++ fieldName ++ " вне диапазона 0-100"

/-- The `scoreFields` name/value list of the range-check loop. -/
def scoreFieldValues (scoringResult breakdown : Json) : List (String × Option Json) :=
  [("total_score", scoringResult.get "total_score"),
   ("breakdown.hard_skills.score", (jget breakdown "hard_skills").get "score"),
   ("breakdown.soft_skills.score", (jget breakdown "soft_skills").get "score"),
   ("breakdown.experience_match.score", (jget breakdown "experience_match").get "score"),
   ("breakdown.position_match.score", (jget breakdown "position_match").get "score")]

/-- Embedding of the response-validation segment of `performScoringAnalysis`
(part_005): object check, truthiness of `scoring_result`, presence of the
five required fields (throwing a message naming the first missing one),
truthiness of the four breakdown sub-keys (throwing one generic message),
then the non-blocking range check; on success the whole response is
returned together with the range warnings. -/
def validateScoringResponse (responseData : Json) : Except String (List String × Json) :=
  if !responseData.truthy || !jsTypeofObject responseData then
    .error "Некорректный формат ответа API: ожидался объект"
  else if !(optTruthy (responseData.get "scoring_result")) then
    .error "Ответ API не содержит обязательное поле: scoring_result"
  else
    let scoringResult := jget responseData "scoring_result"
    match firstMissingRequired scoringResult with
    | some f => .error ("Ответ API не содержит обязательное поле: scoring_result." ++ f)
    | none =>
      let breakdown := jget scoringResult "breakdown"
      if !breakdown.truthy ||
         !(optTruthy (breakdown.get "hard_skills")) ||
         !(optTruthy (breakdown.get "soft_skills")) ||
         !(optTruthy (breakdown.get "experience_match")) ||
         !(optTruthy (breakdown.get "position_match")) then
        .error "Некорректная структура поля breakdown в ответе API"
      else
        let warnings := (scoreFieldValues scoringResult breakdown).filterMap
          (fun p => if scoreInRange p.2 then none else some (rangeWarning p.1))
        .ok (warnings, responseData)

/-- The complete set of error messages `validateScoringResponse` can
raise — all structural, none about numeric ranges. -/
def scoringErrorMessages : List String :=
  ["Некорректный формат ответа API: ожидался объект",
   "Ответ API не содержит обязательное поле: scoring_result"] ++
  requiredScoringFields.map
    (fun f => "Ответ API не содержит обязательное поле: scoring_result." ++ f) ++
  ["Некорректная структура поля breakdown в ответе API"]

/-- Substring test, used to state that an error message does not name a
field. -/
def strContains (hay needle : String) : Bool :=
  searchToks (litToks needle) hay.toList

/-- A well-formed breakdown entry with the given score. -/
def breakdownItem (score : Int) : Json :=
  .obj [("score", .num score), ("summary", .str "ok"), ("description", .str "ok")]

/-- Scoring payload of the C4 scenario: structurally complete except that
`scoring_result.breakdown` lacks the `soft_skills` sub-key. -/
def scoringPayloadNoSoftSkills : Json :=
  .obj [("scoring_result", .obj [
    ("total_score", .num 75),
    ("breakdown", .obj [
      ("hard_skills", breakdownItem 80),
      ("experience_match", breakdownItem 70),
      ("position_match", breakdownItem 60)]),
    ("recommendation", .str "Хорошее совпадение"),
    ("recruiter_recommendation", .str "Рекомендуется"),
    ("candidate_recommendation", .str "Подходит")])]

/-- C4 counterexample: on a payload missing
`scoring_result.breakdown.soft_skills` the raised error is the generic
breakdown-structure message, which does not name
`scoring_result.breakdown.soft_skills` (it does not even contain the
substring `soft_skills`), contradicting the claim that the error names that
field. -/
theorem scoring_missing_soft_skills_cex :
    validateScoringResponse scoringPayloadNoSoftSkills
      = .error "Некорректная структура поля breakdown в ответе API" ∧
    strContains "Некорректная структура поля breakdown в ответе API" "soft_skills" = false :=
  ⟨rfl, by decide⟩

/-- C4 amended: when a 200 response passes the earlier checks but its
`scoring_result.breakdown` lacks the `soft_skills` sub-key, the function
raises an error (so no result is returned for display), but the error is
the generic message about the breakdown structure rather than one naming
`scoring_result.breakdown.soft_skills`; only the five top-level required
fields of `scoring_result` get errors naming the missing field. -/
theorem validateScoringResponse_breakdown_generic (j : Json)
    (h1 : j.truthy = true) (h2 : jsTypeofObject j = true)
    (h3 : optTruthy (j.get "scoring_result") = true)
    (h4 : firstMissingRequired (jget j "scoring_result") = none)
    (h5 : optTruthy ((jget (jget j "scoring_result") "breakdown").get "soft_skills") = false) :
    validateScoringResponse j
      = .error "Некорректная структура поля breakdown в ответе API" := by
  simp [validateScoringResponse, h1, h2, h3, h4, h5]

/-- Closed instance of the amended breakdown-error statement at the C4
scenario payload. -/
theorem validateScoringResponse_breakdown_generic_witness :
    validateScoringResponse scoringPayloadNoSoftSkills
      = .error "Некорректная структура поля breakdown в ответе API" :=
  validateScoringResponse_breakdown_generic scoringPayloadNoSoftSkills rfl rfl rfl rfl rfl

/-- Scoring payload of the C6 scenario: structurally valid with
`total_score = 105`, out of the 0–100 range. -/
def scoringPayload105 : Json :=
  .obj [("scoring_result", .obj [
    ("total_score", .num 105),
    ("breakdown", .obj [
      ("hard_skills", breakdownItem 80),
      ("soft_skills", breakdownItem 75),
      ("experience_match", breakdownItem 70),
      ("position_match", breakdownItem 60)]),
    ("recommendation", .str "Отличное совпадение"),
    ("recruiter_recommendation", .str "Рекомендуется"),
    ("candidate_recommendation", .str "Подходит")])]

/-- C6: out-of-range scores never cause an error — every error the
validation can raise is one of the fixed structural messages; whatever is
returned for display is the response itself; and the scenario payload with
total_score = 105 is returned for display with exactly the range warning
for total_score. -/
theorem scoring_range_violations_nonfatal :
    (∀ j e, validateScoringResponse j = .error e → e ∈ scoringErrorMessages) ∧
    (∀ j w d, validateScoringResponse j = .ok (w, d) → d = j) ∧
    validateScoringResponse scoringPayload105
      = .ok ([rangeWarning "total_score"], scoringPayload105) := by
  refine ⟨?_, ?_, ?_⟩
  · intro j e h
    unfold validateScoringResponse at h
    split at h
    · simp only [Except.error.injEq] at h
      subst h; decide
    · split at h
      · simp only [Except.error.injEq] at h
        subst h; decide
      · dsimp only at h
        split at h
        · rename_i f hf
          simp only [Except.error.injEq] at h
          subst h
          have hmem := List.mem_of_find?_eq_some hf
          simp only [scoringErrorMessages, List.mem_append, List.mem_map]
          exact Or.inl (Or.inr ⟨f, hmem, rfl⟩)
        · split at h
          · simp only [Except.error.injEq] at h
            subst h; decide
          · simp at h
  · intro j w d h
    unfold validateScoringResponse at h
    split at h
    · simp at h
    · split at h
      · simp at h
      · dsimp only at h
        split at h
        · simp at h
        · split at h
          · simp at h
          · simp only [Except.ok.injEq, Prod.mk.injEq] at h
            exact h.2.symm
  · rfl

/-- Closed instance of the non-fatal range policy: a null response raises
the object-format error, which is among the structural messages. -/
theorem scoring_range_violations_nonfatal_witness :
    "Некорректный формат ответа API: ожидался объект" ∈ scoringErrorMessages :=
  scoring_range_violations_nonfatal.1 Json.null
    "Некорректный формат ответа API: ожидался объект" rfl

/-! ## Defensive résumé-field extraction (src/src/components/ResumeUpload.tsx)

`extractDisplayData` reads the parser response with multi-key fallback
chains (`snake_case` / `camelCase`, nested / flat) and defaults every
missing field; being a total function, it cannot throw. -/

/-- Embedding of `extractDisplayData` (ResumeUpload.tsx): each logical field
is a `a || b || ... || default` chain over alternative key spellings. -/
def extractDisplayData (rawData : Json) : Json :=
  let desired_position :=
    firstTruthy [rawData.get "desired_position", rawData.get "desiredPosition"] (.str "")
  let first_name :=
    firstTruthy [rawData.getPath ["personal_info", "first_name"],
                 rawData.getPath ["personalInfo", "first_name"],
                 rawData.get "first_name",
                 rawData.get "firstName"] (.str "")
  let last_name :=
    firstTruthy [rawData.getPath ["personal_info", "last_name"],
                 rawData.getPath ["personalInfo", "last_name"],
                 rawData.get "last_name",
                 rawData.get "lastName"] (.str "")
  let hard_skills :=
    firstTruthy [rawData.getPath ["skills", "hard_skills"],
                 rawData.getPath ["skills", "hardSkills"],
                 rawData.get "hardSkills"] (.arr [])
  let soft_skills :=
    firstTruthy [rawData.getPath ["skills", "soft_skills"],
                 rawData.getPath ["skills", "softSkills"],
                 rawData.get "softSkills"] (.arr [])
  let languages :=
    firstTruthy [rawData.getPath ["skills", "languages"],
                 rawData.get "languages"] (.arr [])
  let summary := firstTruthy [rawData.get "summary", rawData.get "description"] (.str "")
  .obj [("desired_position", desired_position),
        ("personal_info", .obj [("first_name", first_name), ("last_name", last_name)]),
        ("skills", .obj [("hard_skills", hard_skills), ("soft_skills", soft_skills),
                         ("languages", languages)]),
        ("summary", summary)]

/-- The raw parser response of the C8 scenario: partial and camelCased. -/
def annaPayload : Json :=
  .obj [("personal_info", .obj [("first_name", .str "Anna")]),
        ("skills", .obj [("hardSkills", .arr [.str "Go"])])]

/-- C8: on the partial camelCase payload, extraction yields
first_name = "Anna" and hard_skills = ["Go"], empty arrays for the
unspecified skill categories and empty strings for every other extracted
string field; `extractDisplayData` is a total function, so no input makes
it throw. -/
theorem extractDisplayData_anna :
    extractDisplayData annaPayload
      = .obj [("desired_position", .str ""),
              ("personal_info", .obj [("first_name", .str "Anna"), ("last_name", .str "")]),
              ("skills", .obj [("hard_skills", .arr [.str "Go"]),
                               ("soft_skills", .arr []),
                               ("languages", .arr [])]),
              ("summary", .str "")] := rfl

/-! ## Job analysis with degrade-to-manual-entry (src/unnamed/part_007)

`analyzeJobVacancy` posts the vacancy URL and on any failure (non-2xx
status, network failure, unparsable response) builds an empty JobData
structure and switches the component into editing mode. -/

/-- Outcome of the job-extraction fetch as observed by `analyzeJobVacancy`:
a parsed JSON body, a non-2xx response, a network failure, or a body that
is not valid JSON. -/
inductive FetchOutcome where
  | success (data : Json)
  | httpError (status : Nat) (errorText : String)
  | networkError (message : String)
  | invalidJson (message : String)

/-- True on the three failure outcomes. -/
def FetchOutcome.isFailure : FetchOutcome → Bool
  | .success _ => false
  | _ => true

/-- The editable-fields record of the JobAnalysis component
(`editableData`). -/
structure EditableJobData where
  title : Json
  hard_skills : Json
  soft_skills : Json
  languages : Json

/-- React state of the JobAnalysis component touched by
`analyzeJobVacancy`; `completed` records the argument of the last
`onAnalysisComplete` call (none if not called). -/
structure AnalyzeState where
  analysisResult : Option Json
  editableData : EditableJobData
  isAnalyzing : Bool
  error : Option String
  isEditing : Bool
  completed : Option Json

/-- Embedding of `parseJobDataFlexibly` (part_007): unwraps an optional
`job_data` wrapper, then extracts title and the three skill arrays with
array-type checks, defaulting every absent field. -/
def parseJobDataFlexibly (rawData : Json) : Json :=
  let actualJobData := firstTruthy [rawData.get "job_data"] rawData
  let title := firstTruthy [actualJobData.get "job_title", actualJobData.get "title"] (.str "")
  let hard_skills :=
    match actualJobData.getPath ["skills", "hard_skills"] with
    | some (.arr xs) => Json.arr xs
    | _ =>
      match actualJobData.get "required_skills" with
      | some (.arr xs) => Json.arr xs
      | _ => Json.arr []
  let soft_skills :=
    match actualJobData.getPath ["skills", "soft_skills"] with
    | some (.arr xs) => Json.arr xs
    | _ => Json.arr []
  let languages :=
    match actualJobData.getPath ["skills", "languages"] with
    | some (.arr xs) => Json.arr xs
    | _ => Json.arr []
  .obj [("job_title", title), ("title", title),
        ("skills", .obj [("hard_skills", hard_skills), ("soft_skills", soft_skills),
                         ("languages", languages)]),
        ("company_name", firstTruthy [actualJobData.get "company_name"] (.str "")),
        ("location", firstTruthy [actualJobData.get "location"] (.obj [])),
        ("employment_type", firstTruthy [actualJobData.get "employment_type"] (.str "")),
        ("experience_level", firstTruthy [actualJobData.get "experience_level"] (.str "")),
        ("industry", firstTruthy [actualJobData.get "industry"] (.str "")),
        ("description", firstTruthy [actualJobData.get "description"] (.str "")),
        ("required_skills", hard_skills)]

/-- The `emptyData` structure built by the catch branch of
`analyzeJobVacancy` for manual entry. -/
def emptyJobData : Json :=
  .obj [("job_title", .str ""), ("title", .str ""), ("company_name", .str ""),
        ("skills", .obj [("hard_skills", .arr []), ("soft_skills", .arr []),
                         ("languages", .arr [])]),
        ("location", .obj []), ("employment_type", .str ""),
        ("experience_level", .str ""), ("industry", .str ""),
        ("description", .str ""), ("required_skills", .arr [])]

/-- The thrown error message per failure outcome (the catch prefixes it for
the user-facing error). -/
def fetchErrorMessage : FetchOutcome → String
  | .success _ => ""
  | .httpError status errorText =>
      "Ошибка API: " ++ toString status ++ " - " ++ errorText
  | .networkError message => message
  | .invalidJson message => message

/-- Embedding of `analyzeJobVacancy` (part_007) over the fetch outcome: on
success the response is parsed flexibly, stored, copied into the editable
fields and handed to the parent; on any failure the error message is
recorded, an empty-but-editable JobData structure becomes the analysis
result and editing mode is switched on. -/
def analyzeJobVacancy (st : AnalyzeState) (outcome : FetchOutcome) : AnalyzeState :=
  let st0 := { st with error := none, isAnalyzing := true }
  match outcome with
  | .success data =>
      let parsedData := parseJobDataFlexibly data
      { st0 with
        analysisResult := some parsedData
        editableData :=
          { title := firstTruthy [parsedData.get "job_title"] (.str "")
            hard_skills := firstTruthy [parsedData.getPath ["skills", "hard_skills"]] (.arr [])
            soft_skills := firstTruthy [parsedData.getPath ["skills", "soft_skills"]] (.arr [])
            languages := firstTruthy [parsedData.getPath ["skills", "languages"]] (.arr []) }
        isAnalyzing := false
        completed := some parsedData }
  | outcome =>
      { st0 with
        error := some ("Не удалось проанализировать вакансию: " ++ fetchErrorMessage outcome)
        isAnalyzing := false
        analysisResult := some emptyJobData
        editableData := { title := .str "", hard_skills := .arr [],
                          soft_skills := .arr [], languages := .arr [] }
        isEditing := true }

/-- C7: on every failing fetch outcome, `analyzeJobVacancy` does not fail
hard: the analysis result becomes the empty-but-editable JobData structure
(empty job_title, company_name and description, empty skill arrays),
editing mode is switched on, an error message is recorded and the progress
flag is cleared — from any prior component state. -/
theorem analyzeJobVacancy_failure_fallback (st : AnalyzeState) (o : FetchOutcome)
    (h : o.isFailure = true) :
    (analyzeJobVacancy st o).analysisResult = some emptyJobData ∧
    (analyzeJobVacancy st o).isEditing = true ∧
    (analyzeJobVacancy st o).error.isSome = true ∧
    (analyzeJobVacancy st o).isAnalyzing = false ∧
    jget emptyJobData "job_title" = .str "" ∧
    jget emptyJobData "company_name" = .str "" ∧
    jget emptyJobData "description" = .str "" ∧
    jget (jget emptyJobData "skills") "hard_skills" = .arr [] ∧
    jget (jget emptyJobData "skills") "soft_skills" = .arr [] ∧
    jget (jget emptyJobData "skills") "languages" = .arr [] := by
  cases o with
  | success data => simp [FetchOutcome.isFailure] at h
  | httpError status errorText =>
      exact ⟨rfl, rfl, rfl, rfl, rfl, rfl, rfl, rfl, rfl, rfl⟩
  | networkError message =>
      exact ⟨rfl, rfl, rfl, rfl, rfl, rfl, rfl, rfl, rfl, rfl⟩
  | invalidJson message =>
      exact ⟨rfl, rfl, rfl, rfl, rfl, rfl, rfl, rfl, rfl, rfl⟩

/-- Closed instance of the degrade-to-manual-entry fallback on a network
failure from a fresh component state. -/
theorem analyzeJobVacancy_failure_fallback_witness :
    (analyzeJobVacancy
      { analysisResult := none
        editableData := { title := .str "", hard_skills := .arr [],
                          soft_skills := .arr [], languages := .arr [] }
        isAnalyzing := false, error := none, isEditing := false, completed := none }
      (.networkError "Ошибка сети")).isEditing = true :=
  (analyzeJobVacancy_failure_fallback _ (.networkError "Ошибка сети") rfl).2.1

/-! ## Saving a generation from the final step (src/unnamed/part_006)

`handleSaveGeneration` posts the four artifacts to the save-generation
edge function; the artifacts are component props and every failure path
only records `saveError`. -/

/-- The four in-memory artifacts handed to the final step as props; the
cover letter is a plain string (the empty string is falsy in the guard). -/
structure GenerationArtifacts where
  matchingResults : Option Json
  coverLetter : String
  resumeData : Option Json
  jobData : Option Json

/-- State of the final step relevant to `handleSaveGeneration`: the
artifacts and user identity (props) plus the saving/error/success UI
state. -/
structure FinalViewState where
  artifacts : GenerationArtifacts
  user : Option String
  isSaving : Bool
  saveError : Option String
  showSaveSuccess : Bool

/-- Outcome of `supabase.auth.getSession()`: a usable session, or an error
or missing session. -/
inductive SessionOutcome where
  | ok
  | failed

/-- Outcome of the POST to the save-generation function: success, a non-2xx
response (with the optional JSON `error` field of its body), or a network
failure. -/
inductive SaveOutcome where
  | success
  | httpError (errorField : Option String) (status : Nat)
  | networkError (message : String)

/-- The guard of `handleSaveGeneration`
(`!matchingResults || !coverLetter || !resumeData || !jobData || !user`). -/
def missingSaveData (st : FinalViewState) : Bool :=
  st.artifacts.matchingResults.isNone || st.artifacts.coverLetter == "" ||
  st.artifacts.resumeData.isNone || st.artifacts.jobData.isNone || st.user.isNone

/-- Embedding of `handleSaveGeneration` (part_006) over the session and
save-request outcomes: the guard records a missing-data error and stops;
otherwise the saving flag is raised, a failed session or request is caught
and recorded in `saveError` (with `isSaving` cleared in the finally
block), and success raises the success notification. -/
def handleSaveGeneration (st : FinalViewState) (sess : SessionOutcome)
    (save : SaveOutcome) : FinalViewState :=
  if missingSaveData st then
    { st with saveError := some "Отсутствуют необходимые данные для сохранения" }
  else
    let st1 := { st with isSaving := true, saveError := none }
    match sess with
    | .failed =>
        { st1 with
          saveError := some "Не удалось сохранить результаты: Пользователь не аутентифицирован"
          isSaving := false }
    | .ok =>
      match save with
      | .success => { st1 with isSaving := false, showSaveSuccess := true }
      | .httpError errorField status =>
          { st1 with
            saveError := some ("Не удалось сохранить результаты: " ++
              (match errorField with
               | some e => e
               | none => "HTTP error! status: " ++ toString status))
            isSaving := false }
      | .networkError message =>
          { st1 with
            saveError := some ("Не удалось сохранить результаты: " ++ message)
            isSaving := false }

/-- True when `handleSaveGeneration` takes a failure path: missing
artifacts, failed session, or failed save request. -/
def isSaveFailure (st : FinalViewState) (sess : SessionOutcome) (save : SaveOutcome) : Bool :=
  missingSaveData st ||
  (match sess with | .failed => true | .ok => false) ||
  (match save with | .success => false | _ => true)

/-- C9: `handleSaveGeneration` never modifies the in-memory artifacts or
the user identity — on any outcome — and on every failure path it records
an error message and leaves the success notification untouched, so the
user can retry Save without redoing upstream steps. -/
theorem handleSaveGeneration_preserves_artifacts (st : FinalViewState)
    (sess : SessionOutcome) (save : SaveOutcome) :
    (handleSaveGeneration st sess save).artifacts = st.artifacts ∧
    (handleSaveGeneration st sess save).user = st.user ∧
    (isSaveFailure st sess save = true →
      (handleSaveGeneration st sess save).saveError.isSome = true ∧
      (handleSaveGeneration st sess save).showSaveSuccess = st.showSaveSuccess) := by
  cases sess <;> cases save <;>
    unfold handleSaveGeneration isSaveFailure <;>
    split_ifs <;> simp_all

/-- Closed instance of the retry-safety theorem: with the scoring artifact
missing, saving records an error and both artifacts and the success flag
are untouched. -/
theorem handleSaveGeneration_preserves_artifacts_witness :
    (handleSaveGeneration
      { artifacts := { matchingResults := none, coverLetter := "Письмо",
                       resumeData := some (.obj []), jobData := some (.obj []) }
        user := some "user-1", isSaving := false, saveError := none
        showSaveSuccess := false }
      .ok .success).saveError.isSome = true :=
  ((handleSaveGeneration_preserves_artifacts
      { artifacts := { matchingResults := none, coverLetter := "Письмо",
                       resumeData := some (.obj []), jobData := some (.obj []) }
        user := some "user-1", isSaving := false, saveError := none
        showSaveSuccess := false }
      .ok .success).2.2 rfl).1

/-! ## Save-generation edge function
(src/supabase/functions/save-generation/index.ts)

`validateGenerationData` collects one error string per violated
constraint; the insert record is then built with
`overall_score: requestData.overall_score || null`. -/

/-- Result record of `validateGenerationData`
(`{ isValid, errors }`, with `isValid = errors.length === 0`). -/
structure GenValidation where
  isValid : Bool
  errors : List String

/-- One conditional error entry
(`if (violated) errors.push(msg)` becomes `if ok then [] else [msg]`). -/
def vErr (ok : Bool) (msg : String) : List String :=
  if ok then [] else [msg]

/-- One conditional error entry for an optional field, checked only when
the field is defined. -/
def vErrOpt (v : Option Json) (ok : Json → Bool) (msg : String) : List String :=
  match v with
  | none => []
  | some j => if ok j then [] else [msg]

/-- Required-field check
(`!v || typeof v !== 'string' || v.trim().length === 0` is the violation). -/
def requiredStringOk (v : Option Json) : Bool :=
  match v with
  | some (.str s) => (s != "") && ((jsTrim s).length != 0)
  | _ => false

/-- JSON-blob check (`!v || typeof v !== 'object'` is the violation). -/
def jsonObjOk (v : Option Json) : Bool :=
  match v with
  | some j => j.truthy && jsTypeofObject j
  | none => false

/-- Score check on a defined `overall_score`
(`typeof v === 'number' && 0 <= v && v <= 100`). -/
def overallScoreOk (v : Json) : Bool :=
  match v with
  | .num n => decide (0 ≤ n) && decide (n ≤ 100)
  | _ => false

/-- Title check on a defined `title` (string of at most 200 characters). -/
def titleOk (v : Json) : Bool :=
  match v with
  | .str s => decide (s.length ≤ 200)
  | _ => false

/-- The `allowedStatuses` list. -/
def allowedStatuses : List String := ["completed", "draft", "archived"]

/-- Status check on a defined `status`. -/
def statusOk (v : Json) : Bool :=
  match v with
  | .str s => allowedStatuses.contains s
  | _ => false

/-- Embedding of `validateGenerationData` (save-generation/index.ts): the
errors accumulated over the three required strings, the three JSON blobs
and the three optional fields, in source order. -/
def validateGenerationData (data : Json) : GenValidation :=
  let errors :=
    vErr (requiredStringOk (data.get "job_title"))
      "job_title обязательно и должно быть непустой строкой" ++
    vErr (requiredStringOk (data.get "company_name"))
      "company_name обязательно и должно быть непустой строкой" ++
    vErr (requiredStringOk (data.get "cover_letter_text"))
      "cover_letter_text обязательно и должно быть непустой строкой" ++
    vErr (jsonObjOk (data.get "scoring_results_json"))
      "scoring_results_json обязательно и должно быть объектом" ++
    vErr (jsonObjOk (data.get "resume_data_json"))
      "resume_data_json обязательно и должно быть объектом" ++
    vErr (jsonObjOk (data.get "job_data_json"))
      "job_data_json обязательно и должно быть объектом" ++
    vErrOpt (data.get "overall_score") overallScoreOk
      "overall_score должно быть числом от 0 до 100" ++
    vErrOpt (data.get "title") titleOk
      "title должно быть строкой длиной не более 200 символов" ++
    vErrOpt (data.get "status") statusOk
      "status должен быть одним из: completed, draft, archived"
  { isValid := errors.isEmpty, errors := errors }

/-- The record inserted into the `generations` table (`insertData`). -/
structure InsertRecord where
  user_id : String
  job_title : Json
  company_name : Json
  overall_score : Json
  cover_letter_text : Json
  scoring_results_json : Json
  resume_data_json : Json
  job_data_json : Json
  title : Json
  status : Json

/-- JavaScript `.trim()` on a value validation has already established to
be a string (left unchanged otherwise). -/
def jsonTrim : Json → Json
  | .str s => .str (jsTrim s)
  | v => v

/-- JavaScript `requestData.title?.trim() || null`: undefined and null give
null, a string is trimmed with the empty trim falling back to null
(validation has excluded other defined values). -/
def trimmedOrNull (v : Option Json) : Json :=
  match v with
  | some (.str s) => if jsTrim s == "" then .null else .str (jsTrim s)
  | _ => .null

/-- Embedding of the `insertData` construction (save-generation/index.ts),
in particular `overall_score: requestData.overall_score || null`. -/
def buildInsertData (userId : String) (requestData : Json) : InsertRecord :=
  { user_id := userId
    job_title := jsonTrim (jget requestData "job_title")
    company_name := jsonTrim (jget requestData "company_name")
    overall_score :=
      if optTruthy (requestData.get "overall_score") then jget requestData "overall_score"
      else .null
    cover_letter_text := jsonTrim (jget requestData "cover_letter_text")
    scoring_results_json := jget requestData "scoring_results_json"
    resume_data_json := jget requestData "resume_data_json"
    job_data_json := jget requestData "job_data_json"
    title := trimmedOrNull (requestData.get "title")
    status := firstTruthy [requestData.get "status"] (.str "completed") }

/-- Membership in one conditional error entry forces the entry's message
and a violated check. -/
theorem mem_vErr_iff (x : String) (ok : Bool) (msg : String) :
    x ∈ vErr ok msg ↔ (ok = false ∧ x = msg) := by
  unfold vErr
  split <;> simp_all

/-- Membership in one optional conditional error entry forces the entry's
message, a defined field and a violated check. -/
theorem mem_vErrOpt_iff (x : String) (v : Option Json) (ok : Json → Bool) (msg : String) :
    x ∈ vErrOpt v ok msg ↔ (∃ j, v = some j ∧ ok j = false ∧ x = msg) := by
  unfold vErrOpt
  cases v with
  | none => simp
  | some j => split <;> simp_all

/-- C10: a submitted `overall_score` of 0 passes validation (it contributes
no error, being within 0–100) but is stored as null, because the insert
uses `overall_score || null` and 0 is falsy; every strictly positive
in-range score passes validation and is stored unchanged. -/
theorem save_generation_zero_score_dropped (requestData : Json) (userId : String) :
    (requestData.get "overall_score" = some (.num 0) →
      ("overall_score должно быть числом от 0 до 100"
          ∉ (validateGenerationData requestData).errors ∧
       (buildInsertData userId requestData).overall_score = .null)) ∧
    (∀ n : Int, 0 < n → n ≤ 100 →
      requestData.get "overall_score" = some (.num n) →
      ("overall_score должно быть числом от 0 до 100"
          ∉ (validateGenerationData requestData).errors ∧
       (buildInsertData userId requestData).overall_score = .num n)) := by
  constructor
  · intro h
    constructor
    · simp [validateGenerationData, List.mem_append, mem_vErr_iff, mem_vErrOpt_iff, h,
        overallScoreOk]
    · simp [buildInsertData, h, optTruthy, Json.truthy]
  · intro n h1 h2 h
    have h0 : (0 : Int) ≤ n := le_of_lt h1
    have hne : n ≠ 0 := by omega
    constructor
    · simp [validateGenerationData, List.mem_append, mem_vErr_iff, mem_vErrOpt_iff, h,
        overallScoreOk, h0, h2]
    · simp [buildInsertData, h, optTruthy, Json.truthy, jget, hne]

/-- The C10 scenario request: a fully valid save request whose
overall_score is 0. -/
def zeroScoreRequest : Json :=
  .obj [("job_title", .str "Team Lead"),
        ("company_name", .str "Acme"),
        ("cover_letter_text", .str "Здравствуйте"),
        ("scoring_results_json", .obj []),
        ("resume_data_json", .obj []),
        ("job_data_json", .obj []),
        ("overall_score", .num 0)]

/-- Closed instance of the zero-score theorem: the scenario request passes
validation in full, yet the built insert record stores null for
overall_score. -/
theorem save_generation_zero_score_dropped_witness :
    (validateGenerationData zeroScoreRequest).isValid = true ∧
    (buildInsertData "user-1" zeroScoreRequest).overall_score = .null :=
  ⟨rfl, ((save_generation_zero_score_dropped zeroScoreRequest "user-1").1 rfl).2⟩
